import Mathlib

/-!
Verification development for the `mcp_chat` demo servers
(`calculator_server.py`, `data_server.py`, `dynamic_server.py`,
`time_server.py`).

Shallow embedding conventions:
* Python floats are embedded as exact rationals (`ℚ`); foreign float
  operations whose bit-exact behaviour is irrelevant to the claims
  (`str(float)`, `math.sin`, `math.sqrt`, `eval`) are supplied as
  parameters bundled in an environment structure.
* Python dicts are embedded as insertion-ordered association lists with
  the update/delete/lookup operations `dSet`, `dDel`, `dGet`.
* A handler body that can raise is embedded in the `Except String` monad;
  the `try/except` wrapper at the top of a handler is embedded as a match
  that turns `.error e` into the text reply `"Error: " ++ e`.
* Randomness (`random.choice`, `random.randint`, `random.uniform`) is
  supplied by oracle streams (one function `ℕ → ℕ` or `ℕ → ℚ` per call
  site, indexed by the loop counter).
-/

/-! ### Python dictionaries as insertion-ordered association lists -/

/-- Lookup in a python dict (embedded as an association list). -/
def dGet {κ α : Type} [DecidableEq κ] (k : κ) : List (κ × α) → Option α
  | [] => none
  | (k', v) :: rest => if k' = k then some v else dGet k rest

/-- `d[k] = v` on a python dict: overwrite in place if the key is present,
append otherwise (python dicts preserve insertion order). -/
def dSet {κ α : Type} [DecidableEq κ] (k : κ) (v : α) : List (κ × α) → List (κ × α)
  | [] => [(k, v)]
  | (k', v') :: rest => if k' = k then (k, v) :: rest else (k', v') :: dSet k v rest

/-- `del d[k]` on a python dict. -/
def dDel {κ α : Type} [DecidableEq κ] (k : κ) (l : List (κ × α)) : List (κ × α) :=
  l.filter (fun p => ¬ p.1 = k)

/-! ### Python string and list primitives used by the servers -/

/-- One step of left-to-right non-overlapping substring replacement on
character lists, driven by a fuel counter (the fuel is the length of the
list, which suffices because the patterns used are non-empty). -/
def replaceFuel (pat rep : List Char) : Nat → List Char → List Char
  | 0, l => l
  | _, [] => []
  | fuel + 1, c :: rest =>
    if pat.isPrefixOf (c :: rest) ∧ 0 < pat.length then
      rep ++ replaceFuel pat rep fuel (List.drop pat.length (c :: rest))
    else
      c :: replaceFuel pat rep fuel rest

/-- Python `s.replace(pat, rep)` (non-overlapping, left to right). -/
def pyReplace (s pat rep : String) : String :=
  ⟨replaceFuel pat.toList rep.toList s.toList.length s.toList⟩

/-- Scan for an occurrence of `pat` as a contiguous sublist. -/
def infixAt (pat : List Char) : List Char → Bool
  | [] => pat.isEmpty
  | c :: rest => pat.isPrefixOf (c :: rest) || infixAt pat rest

/-- Python `pat in s` (substring containment). -/
def containsSub (s pat : String) : Bool :=
  infixAt pat.toList s.toList

/-- Python `s.lower()` (character-wise, which is all the sources use). -/
def pyLower (s : String) : String := ⟨s.toList.map Char.toLower⟩

/-- Python slice `l[k:]` (negative start counts from the end). -/
def pySliceFrom {α : Type} (l : List α) (k : ℤ) : List α :=
  if 0 ≤ k then l.drop k.toNat else l.drop (l.length - (-k).toNat)

/-- Round half to even on integers scaled by `10 ^ d`: the exact-arithmetic
embedding of python `round(x, d)` (banker's rounding). -/
def roundHalfEven (q : ℚ) : ℤ :=
  let f := ⌊q⌋
  let r := q - f
  if r < 1/2 then f
  else if 1/2 < r then f + 1
  else if f % 2 = 0 then f else f + 1

/-- Python `round(q, d)` over exact rationals. -/
def pyRound (d : ℕ) (q : ℚ) : ℚ :=
  (roundHalfEven (q * (10 ^ d : ℕ)) : ℚ) / (10 ^ d : ℕ)

/-- Python `random.choice(l)`: raises `IndexError` on an empty sequence,
otherwise returns the element selected by the oracle draw `r`. -/
def pyChoice {α : Type} (r : ℕ) (l : List α) : Except String α :=
  match l with
  | [] => .error "Cannot choose from empty sequence"
  | x :: xs => .ok ((x :: xs).get ⟨r % (x :: xs).length, Nat.mod_lt _ (Nat.succ_pos _)⟩)

/-- `random.choice` on a list known to be a non-empty constant (the name
tables of the servers); total, with an unused fallback default. -/
def choiceT (r : ℕ) (l : List String) : String :=
  l.getD (r % l.length) ""

/-- Python `random.randint(a, b)` (inclusive bounds) from oracle draw `r`. -/
def pyRandint (a b r : ℕ) : ℕ :=
  a + r % (b + 1 - a)

/-! ## Calculator server (`calculator_server.py`) -/

/-- Mutable module state of the calculator server. -/
structure CalcState where
  last_result : ℚ
  calculation_history : List String
deriving DecidableEq

/-- Foreign (float/CPython) operations the calculator handler calls into:
`str(float)`, `"{:.4f}"` formatting, the sandboxed `eval` of a sanitized
numeric expression, the `math.*` functions of `scientific_calc`, and
`math.sqrt` as used on the (non-negative) variance in `std_dev`. -/
structure CalcEnv where
  fmt : ℚ → String
  fmt4 : ℚ → String
  pyEval : String → Except String ℚ
  mathF : String → ℚ → ℚ → Except String ℚ
  sqrtF : ℚ → ℚ

/-- Requests to the calculator server's `call_tool`, with optional
arguments embedded as `Option` mirroring `arguments.get`. -/
inductive CalcReq where
  | calculate (expression : String)
  | scientificCalc (operation : String) (value : ℚ) (base : Option ℚ)
  | statistics (numbers : List ℚ) (operation : String)
  | unitConvert (value : ℚ) (from_unit : String) (to_unit : String)
  | history (limit : Option ℤ)
  | unknown (name : String)

/-- The allowed characters of `safe_eval`. -/
def validChars : List Char := "0123456789+-*/().,".toList

/-- `safe_eval` from `calculator_server.py`: strip spaces, validate the
character set, rewrite `^` to `**`, evaluate, and re-wrap any evaluation
failure as `ValueError("Invalid expression: ...")`. -/
def safe_eval (env : CalcEnv) (expression : String) : Except String ℚ :=
  let expr := pyReplace expression " " ""
  if expr.toList.all (fun c => c ∈ validChars) then
    match env.pyEval (pyReplace expr "^" "**") with
    | .ok r => .ok r
    | .error e => .error ("Invalid expression: " ++ e)
  else
    .error ("Invalid characters in expression: " ++ expression)

/-- The `ans` substitution performed by the `calculate` branch: if `"ans"`
occurs in the lowercased expression, replace it by `str(last_result)` in
the lowercased expression; otherwise keep the expression unchanged. -/
def ansSubst (env : CalcEnv) (st : CalcState) (expression : String) : String :=
  if containsSub (pyLower expression) "ans" then
    pyReplace (pyLower expression) "ans" (env.fmt st.last_result)
  else
    expression

/-- Python `str` of a list of floats, `[a, b, c]`. -/
def fmtQList (env : CalcEnv) (l : List ℚ) : String :=
  "[" ++ String.intercalate ", " (l.map env.fmt) ++ "]"

/-- Distinct elements in first-occurrence order (iteration order of a
`collections.Counter` built from the list). -/
def firstOccs (l : List ℚ) : List ℚ :=
  l.foldl (fun acc x => if x ∈ acc then acc else acc ++ [x]) []

/-- Reference (spec-side) mean: the sum divided by the length. -/
def spec_mean (l : List ℚ) : ℚ := l.sum / (l.length : ℚ)

/-- Reference (spec-side) median: middle element of the sorted list for
odd length, average of the two middle elements for even length. -/
def spec_median (l : List ℚ) : ℚ :=
  let s := List.insertionSort (· ≤ ·) l
  let n := l.length
  if n % 2 = 0 then (s.getD (n / 2 - 1) 0 + s.getD (n / 2) 0) / 2
  else s.getD (n / 2) 0

/-- Reference (spec-side) population variance: sum of squared deviations
from the mean divided by the length. -/
def spec_variance (l : List ℚ) : ℚ :=
  (l.map (fun x => (x - spec_mean l) ^ 2)).sum / (l.length : ℚ)

/-- The `conversions` table of `unit_convert` (exact rationals). -/
def c2f (x : ℚ) : ℚ := x * 9 / 5 + 32

/-- `fahrenheit -> celsius` entry of the `conversions` table. -/
def f2c (x : ℚ) : ℚ := (x - 32) * 5 / 9

/-- The `conversions` dict of the `unit_convert` branch. -/
def conversions : List ((String × String) × (ℚ → ℚ)) :=
  [ (("km", "miles"), fun x => x * 0.621371),
    (("miles", "km"), fun x => x * 1.60934),
    (("m", "ft"), fun x => x * 3.28084),
    (("ft", "m"), fun x => x / 3.28084),
    (("celsius", "fahrenheit"), c2f),
    (("fahrenheit", "celsius"), f2c),
    (("kg", "lbs"), fun x => x * 2.20462),
    (("lbs", "kg"), fun x => x / 2.20462) ]

/-- The body of the calculator server's `call_tool` (everything inside the
`try`). Returns the reply texts together with the updated state; `.error`
is a raised exception. -/
def calcBody (env : CalcEnv) (req : CalcReq) (st : CalcState) :
    Except String (List String × CalcState) :=
  match req with
  | .calculate expression =>
    let expr := ansSubst env st expression
    match safe_eval env expr with
    | .error e => .error e
    | .ok result =>
      let entry := expr ++ " = " ++ env.fmt result
      .ok ([entry], ⟨result, st.calculation_history ++ [entry]⟩)
  | .scientificCalc operation value base =>
    if operation ∈ ["sin", "cos", "tan", "log", "ln", "sqrt", "pow", "factorial"] then
      let b := if operation = "log" then base.getD 10
               else if operation = "pow" then base.getD 2 else 0
      match env.mathF operation value b with
      | .error e => .error e
      | .ok result =>
        let entry := operation ++ "(" ++ env.fmt value ++ ") = " ++ env.fmt result
        .ok ([entry], ⟨result, st.calculation_history ++ [entry]⟩)
    else
      .ok (["Unknown operation: " ++ operation], st)
  | .statistics numbers operation =>
    if numbers = [] then .ok (["No numbers provided"], st)
    else if operation = "mean" then
      let result := numbers.sum / (numbers.length : ℚ)
      .ok (["mean of " ++ fmtQList env numbers ++ " = " ++ env.fmt result], st)
    else if operation = "median" then
      let sorted_nums := List.insertionSort (· ≤ ·) numbers
      let n := numbers.length
      let result :=
        if n % 2 = 0 then (sorted_nums.getD (n / 2 - 1) 0 + sorted_nums.getD (n / 2) 0) / 2
        else sorted_nums.getD (n / 2) 0
      .ok (["median of " ++ fmtQList env numbers ++ " = " ++ env.fmt result], st)
    else if operation = "mode" then
      let keys := firstOccs numbers
      let max_count := (keys.map (numbers.count ·)).foldl max 0
      let modes := keys.filter (fun k => numbers.count k = max_count)
      let text := if modes.length = 1 then env.fmt (modes.getD 0 0) else fmtQList env modes
      .ok (["mode of " ++ fmtQList env numbers ++ " = " ++ text], st)
    else if operation = "std_dev" then
      let mean := numbers.sum / (numbers.length : ℚ)
      let variance := (numbers.map (fun x => (x - mean) ^ 2)).sum / (numbers.length : ℚ)
      .ok (["std_dev of " ++ fmtQList env numbers ++ " = " ++ env.fmt (env.sqrtF variance)], st)
    else if operation = "sum" then
      .ok (["sum of " ++ fmtQList env numbers ++ " = " ++ env.fmt numbers.sum], st)
    else
      .ok (["Unknown operation: " ++ operation], st)
  | .unitConvert value from_unit to_unit =>
    let fu := pyLower from_unit
    let tu := pyLower to_unit
    match dGet (fu, tu) conversions with
    | some f =>
      .ok ([env.fmt value ++ " " ++ fu ++ " = " ++ env.fmt4 (f value) ++ " " ++ tu], st)
    | none =>
      .ok (["Conversion from " ++ fu ++ " to " ++ tu ++ " not supported"], st)
  | .history limit =>
    let lim : ℤ := limit.getD 10
    let recent := if st.calculation_history = [] then []
                  else pySliceFrom st.calculation_history (-lim)
    if recent = [] then .ok (["No calculation history"], st)
    else .ok (["Recent calculations:\n" ++ String.intercalate "\n" recent], st)
  | .unknown name =>
    .ok (["Unknown tool: " ++ name], st)

/-- The calculator server's `call_tool`: the body wrapped in the
top-level `try/except` that formats any exception as `"Error: ..."`. -/
def calcCallTool (env : CalcEnv) (req : CalcReq) (st : CalcState) :
    List String × CalcState :=
  match calcBody env req st with
  | .ok r => r
  | .error e => (["Error: " ++ e], st)

/-! ## Data server (`data_server.py`) -/

/-- A JSON scalar stored in a record field: the generated data only uses
numbers and strings. -/
inductive Val where
  | num (q : ℚ)
  | str (s : String)
deriving DecidableEq

/-- Whether a value is numeric (used to decide python comparability). -/
def Val.isNum : Val → Bool
  | .num _ => true
  | .str _ => false

/-- A record (python dict) of a collection. -/
abbrev Item := List (String × Val)

/-- The process-global `data_store`. -/
abbrev Store := List (String × List Item)

/-- Python `a < b` on scalars: comparing a number with a string raises
`TypeError`. -/
def pyLt : Val → Val → Except String Bool
  | .num a, .num b => .ok (decide (a < b))
  | .str a, .str b => .ok (decide (a < b))
  | _, _ => .error "TypeError: unorderable types"

/-- Python `a <= b` on scalars. -/
def pyLe : Val → Val → Except String Bool
  | .num a, .num b => .ok (decide (a ≤ b))
  | .str a, .str b => .ok (decide (a ≤ b))
  | _, _ => .error "TypeError: unorderable types"

/-- Python `a == b` on scalars (never raises; cross-type is `False`). -/
def pyEqB : Val → Val → Bool
  | .num a, .num b => decide (a = b)
  | .str a, .str b => decide (a = b)
  | _, _ => false

/-- Python comparison where the left side is `item.get(field)`, which may
be `None`: ordering against `None` raises `TypeError`. -/
def pyLtO : Option Val → Val → Except String Bool
  | some a, b => pyLt a b
  | none, _ => .error "TypeError: comparison with NoneType"

/-- `<=` variant of `pyLtO`. -/
def pyLeO : Option Val → Val → Except String Bool
  | some a, b => pyLe a b
  | none, _ => .error "TypeError: comparison with NoneType"

/-- Python `item.get(field) == v` (None compares unequal, never raises). -/
def pyEqO (a : Option Val) (b : Val) : Bool :=
  match a with
  | some a => pyEqB a b
  | none => false

/-- A filter condition: either a dict of operator clauses or a direct
equality value. -/
inductive Cond where
  | ops (l : List (String × Val))
  | direct (v : Val)

/-- A MongoDB-style filter: field name to condition. -/
abbrev DFilter := List (String × Cond)

/-- The inner loop of `apply_filter` over the operator clauses of one
field; unknown operators are silently skipped (the source has no `else`).
Returns `false` at the first failing clause, raising if a comparison
raises. -/
def checkOps (item_value : Option Val) : List (String × Val) → Except String Bool
  | [] => .ok true
  | (op, value) :: rest =>
    if op = "$gt" then
      match pyLtO item_value value, pyEqO item_value value with
      | .error e, _ => .error e
      | .ok lt, eq => if !lt && !eq then checkOps item_value rest else .ok false
    else if op = "$lt" then
      match pyLtO item_value value with
      | .error e => .error e
      | .ok lt => if lt then checkOps item_value rest else .ok false
    else if op = "$gte" then
      match pyLtO item_value value with
      | .error e => .error e
      | .ok lt => if !lt then checkOps item_value rest else .ok false
    else if op = "$lte" then
      match pyLeO item_value value with
      | .error e => .error e
      | .ok le => if le then checkOps item_value rest else .ok false
    else if op = "$eq" then
      if pyEqO item_value value then checkOps item_value rest else .ok false
    else if op = "$ne" then
      if !(pyEqO item_value value) then checkOps item_value rest else .ok false
    else
      checkOps item_value rest

/-- `apply_filter` from `data_server.py`: conjunction over the filter
fields, with python comparison semantics (may raise `TypeError`). -/
def applyFilter (item : Item) : DFilter → Except String Bool
  | [] => .ok true
  | (field, .ops l) :: rest =>
    match checkOps (dGet field item) l with
    | .error e => .error e
    | .ok b => if b then applyFilter item rest else .ok false
  | (field, .direct v) :: rest =>
    if pyEqO (dGet field item) v then applyFilter item rest else .ok false

/-- The list comprehension `[item for item in data if apply_filter(...)]`:
left-to-right, raising at the first item whose check raises. -/
def filterExcept (p : Item → Except String Bool) : List Item → Except String (List Item)
  | [] => .ok []
  | x :: xs =>
    match p x with
    | .error e => .error e
    | .ok b =>
      match filterExcept p xs with
      | .error e => .error e
      | .ok rest => .ok (if b then x :: rest else rest)

/-- The sort key `x.get(sort_by, 0)` of `query_data`. -/
def sortKey (sb : String) (it : Item) : Val :=
  (dGet sb it).getD (.num 0)

/-- A total order on scalars used for sorting: numbers and strings by
their own order, and (arbitrarily) all numbers before all strings. The
cross-kind case is never exercised, because `pySortByKey` raises unless
all keys have the same kind, mirroring CPython's `sorted` raising
`TypeError` on mixed keys. -/
def valLeB : Val → Val → Bool
  | .num a, .num b => decide (a ≤ b)
  | .str a, .str b => decide (a ≤ b)
  | .num _, .str _ => true
  | .str _, .num _ => false

/-- `sorted(data, key=lambda x: x.get(sort_by, 0))`: stable ascending sort
by the key; raises `TypeError` when the keys mix numbers and strings. -/
def pySortByKey (sb : String) (l : List Item) : Except String (List Item) :=
  let keys := l.map (sortKey sb)
  if keys.all (fun v => v.isNum) ∨ keys.all (fun v => !v.isNum) then
    .ok (List.insertionSort (fun a b => valLeB (sortKey sb a) (sortKey sb b) = true) l)
  else
    .error "TypeError: unorderable sort keys"

/-- The name tables of `data_server.py`. -/
def FIRST_NAMES : List String :=
  ["Alice", "Bob", "Charlie", "Diana", "Eve", "Frank", "Grace", "Henry", "Iris", "Jack"]

/-- Last-name table. -/
def LAST_NAMES : List String :=
  ["Smith", "Johnson", "Williams", "Brown", "Jones", "Garcia", "Miller", "Davis", "Wilson", "Martinez"]

/-- City table. -/
def CITIES : List String :=
  ["New York", "Los Angeles", "Chicago", "Houston", "Phoenix", "Philadelphia", "San Antonio", "San Diego", "Dallas", "Austin"]

/-- Product-name table. -/
def PRODUCTS : List String :=
  ["Laptop", "Phone", "Tablet", "Monitor", "Keyboard", "Mouse", "Headphones", "Camera", "Printer", "Speaker"]

/-- Department table. -/
def DEPARTMENTS : List String :=
  ["Engineering", "Sales", "Marketing", "HR", "Finance", "Operations", "Support", "Research", "Legal", "Admin"]

/-- Email-domain table of `generate_email`. -/
def domains : List String := ["email.com", "mail.co", "inbox.net", "post.org"]

/-- `generate_email` from `data_server.py` (domain picked by oracle `r`). -/
def generate_email (r : ℕ) (first lastN : String) : String :=
  pyLower first ++ "." ++ pyLower lastN ++ "@" ++ choiceT r domains

/-- Oracle streams for the random draws of `generate_users` (one stream
per `random.*` call site, indexed by the loop counter). -/
structure UserRng where
  firstD : ℕ → ℕ
  lastD : ℕ → ℕ
  domD : ℕ → ℕ
  ageD : ℕ → ℕ
  cityD : ℕ → ℕ
  deptD : ℕ → ℕ
  salaryD : ℕ → ℕ

/-- Oracle streams for `generate_products`; `priceD`/`ratingD` are the
`random.uniform` draws themselves. -/
structure ProdRng where
  adjD : ℕ → ℕ
  nameD : ℕ → ℕ
  priceD : ℕ → ℚ
  stockD : ℕ → ℕ
  catD : ℕ → ℕ
  ratingD : ℕ → ℚ

/-- Oracle streams for `generate_transactions`. -/
structure TxRng where
  userD : ℕ → ℕ
  prodD : ℕ → ℕ
  qtyD : ℕ → ℕ
  dayD : ℕ → ℕ
  statusD : ℕ → ℕ

/-- Environment of the data server: oracle randomness, `str(float)`
formatting and the foreign date rendering
`(start_date + timedelta(days=d)).isoformat()`. -/
structure DataEnv where
  urng : UserRng
  prng : ProdRng
  trng : TxRng
  fmtQ : ℚ → String
  dayStr : ℕ → String

/-- Requests to the data server's `call_tool`. -/
inductive DataReq where
  | generateUsers (count : Option ℕ) (include_fields : Option (List String))
  | generateProducts (count : Option ℕ) (price_range : Option (ℚ × ℚ))
  | generateTransactions (count : Option ℕ) (days_back : Option ℕ)
  | queryData (collection : String) (filt : Option DFilter) (sort_by : Option String)
      (limit : Option ℕ)
  | aggregateData (collection : String) (operation : String) (field : Option String)
      (group_field : Option String)
  | clearData (collection : String)
  | unknown (name : String)

/-- Replies of the data server, with the serialized payloads kept
structured (the source renders them with `json.dumps`/f-strings). -/
inductive DataOut where
  | text (s : String)
  | items (l : List Item)
  | agg (operation : String) (v : Val)
  | aggGroups (operation : String) (l : List (Val × ℕ))
deriving DecidableEq

/-- One generated user record (loop body of `generate_users`). -/
def genUser (env : DataEnv) (fields : List String) (i : ℕ) : Item :=
  let first := choiceT (env.urng.firstD i) FIRST_NAMES
  let lastN := choiceT (env.urng.lastD i) LAST_NAMES
  [("id", Val.num (i + 1))]
  ++ (if "name" ∈ fields then [("name", Val.str (first ++ " " ++ lastN))] else [])
  ++ (if "email" ∈ fields then [("email", Val.str (generate_email (env.urng.domD i) first lastN))] else [])
  ++ (if "age" ∈ fields then [("age", Val.num (pyRandint 22 65 (env.urng.ageD i)))] else [])
  ++ (if "city" ∈ fields then [("city", Val.str (choiceT (env.urng.cityD i) CITIES))] else [])
  ++ (if "department" ∈ fields then [("department", Val.str (choiceT (env.urng.deptD i) DEPARTMENTS))] else [])
  ++ (if "salary" ∈ fields then [("salary", Val.num (pyRandint 40000 150000 (env.urng.salaryD i)))] else [])

/-- One generated product record (loop body of `generate_products`). -/
def genProduct (env : DataEnv) (i : ℕ) : Item :=
  [ ("id", Val.num (i + 1)),
    ("name", Val.str (choiceT (env.prng.adjD i) ["Pro", "Ultra", "Mini", "Max", "Plus"]
      ++ " " ++ choiceT (env.prng.nameD i) PRODUCTS)),
    ("price", Val.num (pyRound 2 (env.prng.priceD i))),
    ("stock", Val.num (env.prng.stockD i % 101)),
    ("category", Val.str (choiceT (env.prng.catD i) ["Electronics", "Accessories", "Computing", "Audio"])),
    ("rating", Val.num (pyRound 1 (env.prng.ratingD i))) ]

/-- One generated transaction (loop body of `generate_transactions`):
`user["id"]` and `product["id"]`/`["name"]`/`["price"]` raise `KeyError`
when absent, `random.choice` raises on an empty collection, and
`round(str * int, 2)` raises `TypeError` on a non-numeric price. -/
def genTx (env : DataEnv) (users products : List Item) (days_back : ℕ) (i : ℕ) :
    Except String Item :=
  match pyChoice (env.trng.userD i) users with
  | .error e => .error e
  | .ok user =>
    match pyChoice (env.trng.prodD i) products with
    | .error e => .error e
    | .ok product =>
      let quantity : ℕ := pyRandint 1 5 (env.trng.qtyD i)
      match dGet "id" user with
      | none => .error "KeyError: id"
      | some uid =>
        match dGet "id" product, dGet "name" product, dGet "price" product with
        | some pid, some pname, some priceV =>
          match priceV with
          | .str _ => .error "TypeError: round of non-numeric total"
          | .num price =>
            .ok [ ("id", Val.num (i + 1)),
                  ("user_id", uid),
                  ("user_name", (dGet "name" user).getD (.str "Unknown")),
                  ("product_id", pid),
                  ("product_name", pname),
                  ("quantity", Val.num quantity),
                  ("price", Val.num price),
                  ("total", Val.num (pyRound 2 (price * quantity))),
                  ("date", Val.str (env.dayStr (pyRandint 0 days_back (env.trng.dayD i)))),
                  ("status", Val.str (choiceT (env.trng.statusD i) ["completed", "pending", "shipped"])) ]
        | _, _, _ => .error "KeyError: product field"

/-- `mapM` over `Except` (left-to-right, stopping at the first raise). -/
def mapExcept {α β : Type} (f : α → Except String β) : List α → Except String (List β)
  | [] => .ok []
  | x :: xs =>
    match f x with
    | .error e => .error e
    | .ok y =>
      match mapExcept f xs with
      | .error e => .error e
      | .ok ys => .ok (y :: ys)

/-- Python `sum(values)` over stored scalars: starts from the int `0`, so
a string operand raises `TypeError`. -/
def pySumVals (l : List Val) : Except String ℚ :=
  l.foldlM (fun acc v =>
    match v with
    | .num q => .ok (acc + q)
    | .str _ => .error "TypeError: unsupported operand") 0

/-- Python `min`/`max` over stored scalars (`isMin` selects which):
raises on an empty sequence or on mixed kinds. -/
def pyMinMaxVals (isMin : Bool) : List Val → Except String Val
  | [] => .error "ValueError: empty sequence"
  | x :: xs =>
    xs.foldlM (fun acc v =>
      match pyLt v acc with
      | .error e => .error e
      | .ok lt => .ok (if (if isMin then lt else !lt) then v else acc)) x

/-- Insertion-ordered grouping used by the `group_by` aggregation. -/
def groupsAdd (k : Val) (it : Item) : List (Val × List Item) → List (Val × List Item)
  | [] => [(k, [it])]
  | (k', l) :: rest => if k' = k then (k', l ++ [it]) :: rest else (k', l) :: groupsAdd k it rest

/-- The body of the data server's `call_tool` (everything inside the
`try`): returns the reply and the updated `data_store`. -/
def dataBody (env : DataEnv) (req : DataReq) (store : Store) :
    Except String (DataOut × Store) :=
  match req with
  | .generateUsers countOpt fieldsOpt =>
    let count := countOpt.getD 10
    let fields := fieldsOpt.getD ["name", "email", "age", "city"]
    let users := (List.range count).map (genUser env fields)
    .ok (.text ("Generated " ++ toString count ++ " users with fields: "
          ++ String.intercalate ", " fields),
         dSet "users" users store)
  | .generateProducts countOpt rangeOpt =>
    let count := countOpt.getD 10
    let range := rangeOpt.getD (10, 1000)
    let products := (List.range count).map (genProduct env)
    .ok (.text ("Generated " ++ toString count ++ " products with prices $"
          ++ env.fmtQ range.1 ++ "-$" ++ env.fmtQ range.2),
         dSet "products" products store)
  | .generateTransactions countOpt daysOpt =>
    let count := countOpt.getD 20
    let days_back := daysOpt.getD 30
    match dGet "users" store, dGet "products" store with
    | some users, some products =>
      (match mapExcept (genTx env users products days_back) (List.range count) with
       | .error e => .error e
       | .ok txs =>
         .ok (.text ("Generated " ++ toString count ++ " transactions over the last "
               ++ toString days_back ++ " days"),
              dSet "transactions" txs store))
    | _, _ => .ok (.text "Please generate users and products first", store)
  | .queryData collection filtOpt sortOpt limOpt =>
    match dGet collection store with
    | none => .ok (.text ("Collection '" ++ collection ++ "' not found"), store)
    | some data0 =>
      let step1 : Except String (List Item) :=
        match filtOpt with
        | some f => if f.isEmpty then .ok data0 else filterExcept (fun it => applyFilter it f) data0
        | none => .ok data0
      match step1 with
      | .error e => .error e
      | .ok data1 =>
        let step2 : Except String (List Item) :=
          match sortOpt with
          | some sb => if sb = "" then .ok data1 else pySortByKey sb data1
          | none => .ok data1
        match step2 with
        | .error e => .error e
        | .ok data2 => .ok (.items (data2.take (limOpt.getD 10)), store)
  | .aggregateData collection operation fieldOpt groupOpt =>
    match dGet collection store with
    | none => .ok (.text ("Collection '" ++ collection ++ "' not found"), store)
    | some data =>
      if operation = "count" then
        .ok (.agg operation (.num data.length), store)
      else if operation ∈ ["sum", "avg", "min", "max"] ∧ fieldOpt.getD "" ≠ "" then
        let field := fieldOpt.getD ""
        let values := data.filterMap (dGet field)
        if values = [] then .ok (.agg operation (.num 0), store)
        else if operation = "sum" then
          match pySumVals values with
          | .error e => .error e
          | .ok s => .ok (.agg operation (.num s), store)
        else if operation = "avg" then
          match pySumVals values with
          | .error e => .error e
          | .ok s => .ok (.agg operation (.num (s / (values.length : ℚ))), store)
        else
          match pyMinMaxVals (operation = "min") values with
          | .error e => .error e
          | .ok v => .ok (.agg operation v, store)
      else if operation = "group_by" then
        if groupOpt.getD "" = "" then
          .ok (.text "group_field required for group_by", store)
        else
          let gf := groupOpt.getD ""
          let groups := data.foldl (fun g it => groupsAdd ((dGet gf it).getD (.str "Unknown")) it g) []
          .ok (.aggGroups operation (groups.map (fun p => (p.1, p.2.length))), store)
      else
        .ok (.text "Invalid operation or missing field", store)
  | .clearData collection =>
    match dGet collection store with
    | some _ => .ok (.text ("Cleared collection '" ++ collection ++ "'"), dDel collection store)
    | none => .ok (.text ("Collection '" ++ collection ++ "' not found"), store)
  | .unknown name =>
    .ok (.text ("Unknown tool: " ++ name), store)

/-- The data server's `call_tool`: the body wrapped in the top-level
`try/except` that formats any exception as `"Error: ..."`. -/
def dataCallTool (env : DataEnv) (req : DataReq) (store : Store) : DataOut × Store :=
  match dataBody env req store with
  | .ok r => r
  | .error e => (.text ("Error: " ++ e), store)

/-! ## Dynamic server (`dynamic_server.py`) -/

/-- A registered tool of the dynamic server (name and description; the
handler closure is behaviourally irrelevant to the claims). -/
structure DynTool where
  toolName : String
  description : String
deriving DecidableEq

/-- State of `DynamicServer`: the `custom_tools` dict and the library's
`server._tools` registry. -/
structure DynState where
  custom_tools : List (String × DynTool)
  server_tools : List (String × DynTool)
deriving DecidableEq

/-- The six base tools registered by `_setup_base_tools` (they are placed
in `server._tools` by the `@server.tool()` decorator, never in
`custom_tools`). -/
def baseTools : List (String × DynTool) :=
  [ ("list_dynamic_tools", ⟨"list_dynamic_tools", "List all dynamically added tools."⟩),
    ("add_tool", ⟨"add_tool", "Add a new tool dynamically."⟩),
    ("remove_tool", ⟨"remove_tool", "Remove a dynamically added tool."⟩),
    ("long_running_task", ⟨"long_running_task", "Execute a long-running task with optional progress updates."⟩),
    ("trigger_resource_change", ⟨"trigger_resource_change", "Trigger a resource change notification."⟩),
    ("get_server_info", ⟨"get_server_info", "Get information about the server."⟩) ]

/-- `DynamicServer.__init__`: empty `custom_tools`, base tools registered. -/
def dynInit : DynState := ⟨[], baseTools⟩

/-- Replies of `add_tool`/`remove_tool` (JSON payloads, kept structured). -/
inductive DynReply where
  | errJson (error : String)
  | okJson (tool message : String)
deriving DecidableEq

/-- `add_tool` from `dynamic_server.py` (default description
`"Dynamic tool"`). -/
def add_tool (n : String) (dOpt : Option String) (st : DynState) : DynReply × DynState :=
  if (dGet n st.custom_tools).isSome then
    (.errJson ("Tool '" ++ n ++ "' already exists"), st)
  else
    let t : DynTool := ⟨n, dOpt.getD "Dynamic tool"⟩
    (.okJson n ("Tool '" ++ n ++ "' added successfully"),
     ⟨dSet n t st.custom_tools, dSet n t st.server_tools⟩)

/-- `remove_tool` from `dynamic_server.py`. -/
def remove_tool (n : String) (st : DynState) : DynReply × DynState :=
  if (dGet n st.custom_tools).isNone then
    (.errJson ("Tool '" ++ n ++ "' not found or is not removable"), st)
  else
    (.okJson n ("Tool '" ++ n ++ "' removed successfully"),
     ⟨dDel n st.custom_tools, dDel n st.server_tools⟩)

/-- The invariant of the dynamic server: every custom tool is also
registered in `server._tools`. -/
def DynInv (st : DynState) : Prop :=
  ∀ k, (dGet k st.custom_tools).isSome → (dGet k st.server_tools).isSome

/-! ## Time server (`time_server.py`) -/

/-- The `TIMEZONES` table. -/
def TIMEZONES : List (String × String) :=
  [ ("UTC", "UTC"),
    ("EST", "America/New_York"),
    ("PST", "America/Los_Angeles"),
    ("CST", "America/Chicago"),
    ("MST", "America/Denver"),
    ("GMT", "Europe/London"),
    ("CET", "Europe/Paris"),
    ("JST", "Asia/Tokyo"),
    ("AEST", "Australia/Sydney") ]

/-- `TIMEZONES.get(tz_code, "UTC")`. -/
def lookupTz (code : String) : String :=
  (dGet code TIMEZONES).getD "UTC"

/-- Foreign datetime/pytz operations of the time server, over an abstract
datetime type `DT`: current time in a zone, the `strftime` formats used,
`strptime` (returning `none` for the `ValueError` it raises on malformed
input), `localize`, `astimezone`, the timedelta in whole seconds, and
`str(datetime.now().date())`. -/
structure TimeEnv (DT : Type) where
  nowIn : String → DT
  fmt12 : DT → String
  fmt24 : DT → String
  fmtUS : DT → String
  fmtEU : DT → String
  fmtISO : DT → String
  fmtHM : DT → String
  parseDT : String → Option DT
  localize : String → DT → DT
  astimezone : String → DT → DT
  diffSec : DT → DT → ℤ
  todayStr : String

/-- Requests to the time server's `call_tool`. -/
inductive TimeReq where
  | getCurrentTime (timezone : Option String) (format : Option String)
  | getDate (timezone : Option String) (format : Option String)
  | timeUntil (target_date : String) (target_time : Option String) (timezone : Option String)
  | tzConverter (time : String) (from_timezone : String) (to_timezone : String)
  | unknown (name : String)

/-- The time server's `call_tool`. Unlike the other servers it has no
`try/except`, so a raised exception (here: `strptime` failing) surfaces
as `.error` to the caller. -/
def timeCallTool {DT : Type} (env : TimeEnv DT) (req : TimeReq) :
    Except String (List String) :=
  match req with
  | .getCurrentTime tzOpt fmtOpt =>
    let tz_code := tzOpt.getD "UTC"
    let tz_name := lookupTz tz_code
    let format_type := fmtOpt.getD "24h"
    let now := env.nowIn tz_name
    let time_str := if format_type = "12h" then env.fmt12 now else env.fmt24 now
    .ok ["Current time in " ++ tz_code ++ ": " ++ time_str]
  | .getDate tzOpt fmtOpt =>
    let tz_code := tzOpt.getD "UTC"
    let tz_name := lookupTz tz_code
    let format_type := fmtOpt.getD "iso"
    let now := env.nowIn tz_name
    let date_str := if format_type = "us" then env.fmtUS now
                    else if format_type = "eu" then env.fmtEU now
                    else env.fmtISO now
    .ok ["Current date in " ++ tz_code ++ ": " ++ date_str]
  | .timeUntil target_date target_time_opt tzOpt =>
    let target_time := target_time_opt.getD "00:00"
    let tz_code := tzOpt.getD "UTC"
    let tz_name := lookupTz tz_code
    let target_str := target_date ++ " " ++ target_time
    match env.parseDT target_str with
    | none => .error ("ValueError: time data '" ++ target_str ++ "' does not match format")
    | some dt =>
      let target := env.localize tz_name dt
      let now := env.nowIn tz_name
      let diff := env.diffSec target now
      if diff < 0 then
        .ok ["The target date " ++ target_str ++ " has already passed!"]
      else
        let s := diff.toNat
        .ok ["Time until " ++ target_str ++ " " ++ tz_code ++ ": "
              ++ toString (s / 86400) ++ " days, " ++ toString (s % 86400 / 3600)
              ++ " hours, " ++ toString (s % 3600 / 60) ++ " minutes"]
  | .tzConverter time_str fromC toC =>
    let from_tz := lookupTz fromC
    let to_tz := lookupTz toC
    match env.parseDT (env.todayStr ++ " " ++ time_str) with
    | none => .error ("ValueError: time data '" ++ env.todayStr ++ " " ++ time_str
                ++ "' does not match format")
    | some dt =>
      let dt_from := env.localize from_tz dt
      let dt_to := env.astimezone to_tz dt_from
      .ok [time_str ++ " " ++ fromC ++ " = " ++ env.fmtHM dt_to ++ " " ++ toC]
  | .unknown name =>
    .ok ["Unknown tool: " ++ name]

/-- The nine supported timezone codes. -/
def supportedTz : List String :=
  ["UTC", "EST", "PST", "CST", "MST", "GMT", "CET", "JST", "AEST"]

/-! ## Spec-side reference definitions and hypothesis predicates -/

/-- The four ordering operators of the filter language (the ones whose
python comparison can raise `TypeError`). -/
def ordOps : List String := ["$gt", "$lt", "$gte", "$lte"]

/-- Spec-side `item value < filter value` (false when the field is
missing or the kinds differ). -/
def oLtB : Option Val → Val → Bool
  | some (.num a), .num b => decide (a < b)
  | some (.str a), .str b => decide (a < b)
  | _, _ => false

/-- Spec-side `item value > filter value`. -/
def oGtB : Option Val → Val → Bool
  | some (.num a), .num b => decide (b < a)
  | some (.str a), .str b => decide (b < a)
  | _, _ => false

/-- Spec-side `item value <= filter value`. -/
def oLeB : Option Val → Val → Bool
  | some (.num a), .num b => decide (a ≤ b)
  | some (.str a), .str b => decide (a ≤ b)
  | _, _ => false

/-- Spec-side `item value >= filter value`. -/
def oGeB : Option Val → Val → Bool
  | some (.num a), .num b => decide (b ≤ a)
  | some (.str a), .str b => decide (b ≤ a)
  | _, _ => false

/-- Spec-side meaning of one operator clause (`$eq`/`$ne` follow python
equality, which treats a missing field as unequal; unknown operators are
vacuously satisfied, as the source skips them). -/
def specOpHolds (iv : Option Val) (op : String) (v : Val) : Bool :=
  if op = "$gt" then oGtB iv v
  else if op = "$lt" then oLtB iv v
  else if op = "$gte" then oGeB iv v
  else if op = "$lte" then oLeB iv v
  else if op = "$eq" then pyEqO iv v
  else if op = "$ne" then !(pyEqO iv v)
  else true

/-- Spec-side meaning of one field condition. -/
def specCondHolds (item : Item) : String × Cond → Bool
  | (field, .ops cl) => cl.all (fun q => specOpHolds (dGet field item) q.1 q.2)
  | (field, .direct v) => pyEqO (dGet field item) v

/-- Spec-side filter semantics: the conjunction of all field conditions
of the MongoDB-style filter. -/
def specMatches (item : Item) (f : DFilter) : Bool :=
  f.all (specCondHolds item)

/-- Comparability of one operator clause: for the four ordering
operators the item must carry the field with a value of the same kind as
the filter value (otherwise the python comparison raises `TypeError`). -/
def condOk (item : Item) (field : String) (q : String × Val) : Bool :=
  !(decide (q.1 ∈ ordOps)) ||
    (match dGet field item with
     | some w => w.isNum == q.2.isNum
     | none => false)

/-- Comparability of a whole filter against one item. -/
def filterComparable (item : Item) (f : DFilter) : Bool :=
  f.all (fun p =>
    match p.2 with
    | .ops cl => cl.all (condOk item p.1)
    | .direct _ => true)

/-- All sort keys of the same kind (the condition under which CPython's
`sorted` cannot raise on the key comparisons). -/
def SortKeysUniform (sb : String) (l : List Item) : Prop :=
  (l.map (sortKey sb)).all (fun v => v.isNum) = true
    ∨ (l.map (sortKey sb)).all (fun v => !v.isNum) = true

/-- The per-transaction property claimed for `generate_transactions`:
the stored total is the chosen product's price times the quantity,
rounded to two decimal places. -/
def TxProp (products : List Item) (tx : Item) : Prop :=
  ∃ product, product ∈ products ∧ ∃ pq q, dGet "price" product = some (Val.num pq) ∧
    dGet "quantity" tx = some (Val.num q) ∧ dGet "price" tx = some (Val.num pq) ∧
    dGet "total" tx = some (Val.num (pyRound 2 (pq * q)))

/-! ### Concrete environments for witnesses and counterexamples -/

/-- A concrete calculator environment (for evaluating the embedding on
closed inputs). -/
def calcEnv0 : CalcEnv :=
  ⟨fun _ => "0", fun _ => "0", fun _ => .ok 0, fun _ _ _ => .ok 0, fun _ => 0⟩

/-- A concrete data-server environment. -/
def dataEnv0 : DataEnv :=
  ⟨⟨fun _ => 0, fun _ => 0, fun _ => 0, fun _ => 0, fun _ => 0, fun _ => 0, fun _ => 0⟩,
   ⟨fun _ => 0, fun _ => 0, fun _ => 0, fun _ => 0, fun _ => 0, fun _ => 0⟩,
   ⟨fun _ => 0, fun _ => 0, fun _ => 0, fun _ => 0, fun _ => 0⟩,
   fun _ => "0", fun _ => "1970-01-01"⟩

/-- A concrete time-server environment over the trivial datetime type
(`parseDT` always fails, standing for a malformed date string). -/
def timeEnv0 : TimeEnv Unit :=
  ⟨fun _ => (), fun _ => "t12", fun _ => "t24", fun _ => "us", fun _ => "eu",
   fun _ => "iso", fun _ => "hm", fun _ => none, fun _ _ => (), fun _ _ => (),
   fun _ _ => 0, "2024-01-01"⟩

/-! ## Helper lemmas -/

theorem dGet_dSet {κ α : Type} [DecidableEq κ] (k k' : κ) (v : α) (l : List (κ × α)) :
    dGet k (dSet k' v l) = if k' = k then some v else dGet k l := by
  induction l with
  | nil => simp [dGet, dSet]
  | cons p rest ih =>
    obtain ⟨a, b⟩ := p
    by_cases h : a = k'
    · subst h
      by_cases h2 : a = k <;> simp [dSet, dGet, h2]
    · simp only [dSet, if_neg h, dGet]
      by_cases h2 : a = k
      · subst h2
        have hk : ¬ k' = a := fun hh => h hh.symm
        simp [hk]
      · simp [h2, ih]

theorem dGet_dDel {κ α : Type} [DecidableEq κ] (k k' : κ) (l : List (κ × α)) :
    dGet k (dDel k' l) = if k = k' then none else dGet k l := by
  induction l with
  | nil => simp [dGet, dDel]
  | cons p rest ih =>
    obtain ⟨a, b⟩ := p
    by_cases h : a = k'
    · subst h
      simp only [dDel, List.filter_cons] at ih ⊢
      rw [if_neg (by simp)]
      rw [ih]
      by_cases hk : k = a
      · simp [hk]
      · have hak : ¬ a = k := fun hh => hk hh.symm
        simp [hk, dGet, hak]
    · simp only [dDel, List.filter_cons] at ih ⊢
      rw [if_pos (by simp [h])]
      by_cases h2 : a = k
      · subst h2
        have hk : ¬ a = k' := h
        simp [dGet, hk]
      · simp only [dGet, if_neg h2]
        exact ih

theorem bool_gt_char {α : Type} [LinearOrder α] (a b : α) :
    (!(decide (a < b)) && !(decide (a = b))) = decide (b < a) := by
  rcases lt_trichotomy a b with h | h | h
  · simp [h, h.ne, asymm h]
  · simp [h]
  · simp [h, h.ne', not_lt_of_gt h]

theorem bool_ge_char {α : Type} [LinearOrder α] (a b : α) :
    (!(decide (a < b))) = decide (b ≤ a) := by
  by_cases h : a < b
  · simp [h, not_le_of_lt h]
  · simp [h, not_lt.mp h]

theorem bool_gt_char_str (a b : String) :
    (!(decide (a < b)) && !(decide (a = b))) = decide (b < a) := by
  rcases lt_trichotomy a b with h | h | h
  · simp [h, h.ne, asymm h]
  · simp [h]
  · simp [h, h.ne', not_lt_of_gt h]

theorem bool_ge_char_str (a b : String) :
    (!(decide (a < b))) = decide (b ≤ a) := by
  by_cases h : a < b
  · simp [h, not_le_of_lt h]
  · simp [h, not_lt.mp h]

theorem checkOps_eq (iv : Option Val) (cl : List (String × Val))
    (h : ∀ q ∈ cl, q.1 ∈ ordOps → ∃ w, iv = some w ∧ w.isNum = q.2.isNum) :
    checkOps iv cl = .ok (cl.all (fun q => specOpHolds iv q.1 q.2)) := by
  induction cl with
  | nil => rfl
  | cons q rest ih =>
    obtain ⟨op, v⟩ := q
    have hrest := ih (fun q hq => h q (List.mem_cons_of_mem _ hq))
    have hhead := h (op, v) (List.mem_cons_self _ _)
    rw [List.all_cons]
    by_cases hgt : op = "$gt"
    · subst hgt
      obtain ⟨w, hiv, hkind⟩ := hhead (by simp [ordOps])
      subst hiv
      cases w with
      | num a =>
        cases v with
        | num b =>
          have hstep : checkOps (some (Val.num a)) (("$gt", Val.num b) :: rest)
              = if (!(decide (a < b)) && !(decide (a = b))) = true
                then checkOps (some (Val.num a)) rest else .ok false := rfl
          have hh : specOpHolds (some (Val.num a)) "$gt" (Val.num b) = decide (b < a) := rfl
          rw [hstep, bool_gt_char, hh]
          cases hb : decide (b < a)
          · simp [hb]
          · simp [hb, hrest]
        | str b => simp [Val.isNum] at hkind
      | str a =>
        cases v with
        | num b => simp [Val.isNum] at hkind
        | str b =>
          have hstep : checkOps (some (Val.str a)) (("$gt", Val.str b) :: rest)
              = if (!(decide (a < b)) && !(decide (a = b))) = true
                then checkOps (some (Val.str a)) rest else .ok false := rfl
          have hh : specOpHolds (some (Val.str a)) "$gt" (Val.str b) = decide (b < a) := rfl
          rw [hstep, bool_gt_char_str, hh]
          cases hb : decide (b < a)
          · simp [hb]
          · simp [hb, hrest]
    · by_cases hlt : op = "$lt"
      · subst hlt
        obtain ⟨w, hiv, hkind⟩ := hhead (by simp [ordOps])
        subst hiv
        cases w with
        | num a =>
          cases v with
          | num b =>
            have hstep : checkOps (some (Val.num a)) (("$lt", Val.num b) :: rest)
                = if decide (a < b) = true
                  then checkOps (some (Val.num a)) rest else .ok false := rfl
            have hh : specOpHolds (some (Val.num a)) "$lt" (Val.num b) = decide (a < b) := rfl
            rw [hstep, hh]
            cases hb : decide (a < b)
            · simp [hb]
            · simp [hb, hrest]
          | str b => simp [Val.isNum] at hkind
        | str a =>
          cases v with
          | num b => simp [Val.isNum] at hkind
          | str b =>
            have hstep : checkOps (some (Val.str a)) (("$lt", Val.str b) :: rest)
                = if decide (a < b) = true
                  then checkOps (some (Val.str a)) rest else .ok false := rfl
            have hh : specOpHolds (some (Val.str a)) "$lt" (Val.str b) = decide (a < b) := rfl
            rw [hstep, hh]
            cases hb : decide (a < b)
            · simp [hb]
            · simp [hb, hrest]
      · by_cases hge : op = "$gte"
        · subst hge
          obtain ⟨w, hiv, hkind⟩ := hhead (by simp [ordOps])
          subst hiv
          cases w with
          | num a =>
            cases v with
            | num b =>
              have hstep : checkOps (some (Val.num a)) (("$gte", Val.num b) :: rest)
                  = if (!(decide (a < b))) = true
                    then checkOps (some (Val.num a)) rest else .ok false := rfl
              have hh : specOpHolds (some (Val.num a)) "$gte" (Val.num b) = decide (b ≤ a) := rfl
              rw [hstep, bool_ge_char, hh]
              cases hb : decide (b ≤ a)
              · simp [hb]
              · simp [hb, hrest]
            | str b => simp [Val.isNum] at hkind
          | str a =>
            cases v with
            | num b => simp [Val.isNum] at hkind
            | str b =>
              have hstep : checkOps (some (Val.str a)) (("$gte", Val.str b) :: rest)
                  = if (!(decide (a < b))) = true
                    then checkOps (some (Val.str a)) rest else .ok false := rfl
              have hh : specOpHolds (some (Val.str a)) "$gte" (Val.str b) = decide (b ≤ a) := rfl
              rw [hstep, bool_ge_char_str, hh]
              cases hb : decide (b ≤ a)
              · simp [hb]
              · simp [hb, hrest]
        · by_cases hle : op = "$lte"
          · subst hle
            obtain ⟨w, hiv, hkind⟩ := hhead (by simp [ordOps])
            subst hiv
            cases w with
            | num a =>
              cases v with
              | num b =>
                have hstep : checkOps (some (Val.num a)) (("$lte", Val.num b) :: rest)
                    = if decide (a ≤ b) = true
                      then checkOps (some (Val.num a)) rest else .ok false := rfl
                have hh : specOpHolds (some (Val.num a)) "$lte" (Val.num b) = decide (a ≤ b) := rfl
                rw [hstep, hh]
                cases hb : decide (a ≤ b)
                · simp [hb]
                · simp [hb, hrest]
              | str b => simp [Val.isNum] at hkind
            | str a =>
              cases v with
              | num b => simp [Val.isNum] at hkind
              | str b =>
                have hstep : checkOps (some (Val.str a)) (("$lte", Val.str b) :: rest)
                    = if decide (a ≤ b) = true
                      then checkOps (some (Val.str a)) rest else .ok false := rfl
                have hh : specOpHolds (some (Val.str a)) "$lte" (Val.str b) = decide (a ≤ b) := rfl
                rw [hstep, hh]
                cases hb : decide (a ≤ b)
                · simp [hb]
                · simp [hb, hrest]
          · by_cases heq : op = "$eq"
            · subst heq
              have hstep : checkOps iv (("$eq", v) :: rest)
                  = if pyEqO iv v = true then checkOps iv rest else .ok false := rfl
              have hh : specOpHolds iv "$eq" v = pyEqO iv v := rfl
              rw [hstep, hh]
              cases hb : pyEqO iv v
              · simp [hb]
              · simp [hb, hrest]
            · by_cases hne : op = "$ne"
              · subst hne
                have hstep : checkOps iv (("$ne", v) :: rest)
                    = if (!(pyEqO iv v)) = true then checkOps iv rest else .ok false := rfl
                have hh : specOpHolds iv "$ne" v = !(pyEqO iv v) := rfl
                rw [hstep, hh]
                cases hb : !(pyEqO iv v)
                · simp [hb]
                · simp [hb, hrest]
              · have hstep : checkOps iv ((op, v) :: rest) = checkOps iv rest := by
                  simp only [checkOps, if_neg hgt, if_neg hlt, if_neg hge, if_neg hle,
                    if_neg heq, if_neg hne]
                have hh : specOpHolds iv op v = true := by
                  simp only [specOpHolds, if_neg hgt, if_neg hlt, if_neg hge, if_neg hle,
                    if_neg heq, if_neg hne]
                rw [hstep, hh, hrest, Bool.true_and]

theorem applyFilter_eq (item : Item) (f : DFilter)
    (hcomp : filterComparable item f = true) :
    applyFilter item f = .ok (specMatches item f) := by
  induction f with
  | nil => rfl
  | cons p rest ih =>
    obtain ⟨field, cond⟩ := p
    rw [show specMatches item ((field, cond) :: rest)
        = (specCondHolds item (field, cond) && specMatches item rest) from rfl]
    simp only [filterComparable, List.all_cons, Bool.and_eq_true] at hcomp
    obtain ⟨hhead, hrest⟩ := hcomp
    have ihr := ih hrest
    cases cond with
    | ops cl =>
      have hcl : ∀ q ∈ cl, q.1 ∈ ordOps → ∃ w, dGet field item = some w ∧ w.isNum = q.2.isNum := by
        intro q hq hop
        have hq2 : condOk item field q = true := List.all_eq_true.mp hhead q hq
        unfold condOk at hq2
        rcases Bool.or_eq_true_iff.mp hq2 with h1 | h2
        · exact absurd hop (by simpa using h1)
        · cases hg : dGet field item with
          | none => rw [hg] at h2; simp at h2
          | some w =>
            rw [hg] at h2
            exact ⟨w, rfl, by simpa using h2⟩
      rw [show applyFilter item ((field, Cond.ops cl) :: rest)
          = (match checkOps (dGet field item) cl with
             | .error e => .error e
             | .ok b => if b then applyFilter item rest else .ok false) from rfl]
      rw [checkOps_eq _ _ hcl]
      cases hb : cl.all (fun q => specOpHolds (dGet field item) q.1 q.2)
      · simp [specCondHolds, hb]
      · simp [specCondHolds, hb, ihr]
    | direct v =>
      rw [show applyFilter item ((field, Cond.direct v) :: rest)
          = (if pyEqO (dGet field item) v then applyFilter item rest else .ok false) from rfl]
      cases hb : pyEqO (dGet field item) v
      · simp [specCondHolds, hb]
      · simp [specCondHolds, hb, ihr]

theorem filterExcept_eq (p : Item → Except String Bool) (q : Item → Bool) (l : List Item)
    (h : ∀ it ∈ l, p it = .ok (q it)) :
    filterExcept p l = .ok (l.filter q) := by
  induction l with
  | nil => rfl
  | cons x xs ih =>
    have hx := h x (List.mem_cons_self _ _)
    have ihx := ih (fun it hit => h it (List.mem_cons_of_mem _ hit))
    rw [show filterExcept p (x :: xs)
        = (match p x with
           | .error e => .error e
           | .ok b =>
             match filterExcept p xs with
             | .error e => .error e
             | .ok rest => .ok (if b then x :: rest else rest)) from rfl]
    rw [hx, ihx]
    cases hb : q x
    · simp [List.filter_cons, hb]
    · simp [List.filter_cons, hb]

theorem valLeB_total (v w : Val) : valLeB v w = true ∨ valLeB w v = true := by
  cases v <;> cases w <;> simp [valLeB, decide_eq_true_eq] <;> exact le_total _ _

theorem valLeB_trans (u v w : Val) (h1 : valLeB u v = true) (h2 : valLeB v w = true) :
    valLeB u w = true := by
  cases u <;> cases v <;> cases w <;>
    simp [valLeB, decide_eq_true_eq] at h1 h2 ⊢ <;>
    exact le_trans h1 h2

theorem pySortByKey_ok (sb : String) (l : List Item) (h : SortKeysUniform sb l) :
    pySortByKey sb l = .ok (List.insertionSort
      (fun a b => valLeB (sortKey sb a) (sortKey sb b) = true) l) := by
  unfold pySortByKey
  exact if_pos h

theorem pyChoice_ok {α : Type} (r : ℕ) (l : List α) (h : l ≠ []) :
    ∃ x, pyChoice r l = .ok x ∧ x ∈ l := by
  cases l with
  | nil => exact absurd rfl h
  | cons a as => exact ⟨_, rfl, List.get_mem _ _ _⟩

theorem mapExcept_exists {α β : Type} (f : α → Except String β) (l : List α)
    (h : ∀ x ∈ l, ∃ y, f x = .ok y) :
    ∃ ys, mapExcept f l = .ok ys ∧ ys.length = l.length ∧
      ∀ y ∈ ys, ∃ x, x ∈ l ∧ f x = .ok y := by
  induction l with
  | nil => exact ⟨[], rfl, rfl, by simp⟩
  | cons a as ih =>
    obtain ⟨y, hy⟩ := h a (List.mem_cons_self _ _)
    obtain ⟨ys, hys, hlen, hmem⟩ := ih (fun x hx => h x (List.mem_cons_of_mem _ hx))
    refine ⟨y :: ys, ?_, by simp [hlen], ?_⟩
    · rw [show mapExcept f (a :: as)
          = (match f a with
             | .error e => .error e
             | .ok y =>
               match mapExcept f as with
               | .error e => .error e
               | .ok ys => .ok (y :: ys)) from rfl, hy, hys]
    · intro z hz
      rcases List.mem_cons.mp hz with hz | hz
      · exact ⟨a, List.mem_cons_self _ _, by rw [hz]; exact hy⟩
      · obtain ⟨x, hx, hfx⟩ := hmem z hz
        exact ⟨x, List.mem_cons_of_mem _ hx, hfx⟩

theorem genTx_ok (env : DataEnv) (users products : List Item) (db i : ℕ)
    (hune : users ≠ []) (hpne : products ≠ [])
    (huid : ∀ u ∈ users, (dGet "id" u).isSome)
    (hpf : ∀ p ∈ products, (dGet "id" p).isSome ∧ (dGet "name" p).isSome ∧
           ∃ q, dGet "price" p = some (Val.num q)) :
    ∃ tx, genTx env users products db i = .ok tx ∧ TxProp products tx := by
  obtain ⟨user, huserEq, humem⟩ := pyChoice_ok (env.trng.userD i) users hune
  obtain ⟨product, hprodEq, hpmem⟩ := pyChoice_ok (env.trng.prodD i) products hpne
  obtain ⟨uid, huid2⟩ := Option.isSome_iff_exists.mp (huid user humem)
  obtain ⟨hpidS, hpnameS, pq, hpq⟩ := hpf product hpmem
  obtain ⟨pid, hpid2⟩ := Option.isSome_iff_exists.mp hpidS
  obtain ⟨pname, hpname2⟩ := Option.isSome_iff_exists.mp hpnameS
  refine ⟨[("id", Val.num (i + 1)), ("user_id", uid),
      ("user_name", (dGet "name" user).getD (.str "Unknown")),
      ("product_id", pid), ("product_name", pname),
      ("quantity", Val.num (pyRandint 1 5 (env.trng.qtyD i))),
      ("price", Val.num pq),
      ("total", Val.num (pyRound 2 (pq * (pyRandint 1 5 (env.trng.qtyD i))))),
      ("date", Val.str (env.dayStr (pyRandint 0 db (env.trng.dayD i)))),
      ("status", Val.str (choiceT (env.trng.statusD i) ["completed", "pending", "shipped"]))],
    ?_, ?_⟩
  · simp only [genTx, huserEq, hprodEq, huid2, hpid2, hpname2, hpq]
  · exact ⟨product, hpmem, pq, pyRandint 1 5 (env.trng.qtyD i), hpq,
      by simp [dGet], by simp [dGet], by simp [dGet]⟩

/-- C1 (amended): the calculator and data servers catch every exception
raised in the handler body at the top of `call_tool` and return it as the
text `"Error: <message>"`; the time server's handler has no such catch
(see the counterexample, where an exception escapes it). -/
theorem C1_error_wrapping :
    (∀ env req st e, calcBody env req st = .error e →
       calcCallTool env req st = (["Error: " ++ e], st)) ∧
    (∀ env req store e, dataBody env req store = .error e →
       dataCallTool env req store = (.text ("Error: " ++ e), store)) := by
  constructor
  · intro env req st e h
    unfold calcCallTool
    rw [h]
  · intro env req store e h
    unfold dataCallTool
    rw [h]

/-- C1 counterexample: the time server's `call_tool` propagates the
`ValueError` of `strptime` on a malformed `target_date`, so it is not
true that every handler catches every exception. -/
theorem C1_time_server_escape :
    timeCallTool timeEnv0 (.timeUntil "garbage" none none)
      = .error "ValueError: time data 'garbage 00:00' does not match format" := rfl

/-- Witness for C1: concrete inputs on which each wrapped handler turns a
raised exception into an `"Error: ..."` text reply. -/
theorem C1_error_wrapping_witness :
    calcCallTool calcEnv0 (.calculate "!") ⟨0, []⟩
        = (["Error: Invalid characters in expression: !"], ⟨0, []⟩) ∧
    dataCallTool dataEnv0 (.aggregateData "c" "sum" (some "x") none)
        [("c", [[("x", Val.str "s")]])]
        = (.text "Error: TypeError: unsupported operand", [("c", [[("x", Val.str "s")]])]) := by
  constructor
  · exact C1_error_wrapping.1 calcEnv0 (.calculate "!") ⟨0, []⟩
      "Invalid characters in expression: !" (by rfl)
  · exact C1_error_wrapping.2 dataEnv0 (.aggregateData "c" "sum" (some "x") none)
      [("c", [[("x", Val.str "s")]])] "TypeError: unsupported operand" (by rfl)

/-- C3: on the `calculate` tool, if `safe_eval` of the (ans-substituted)
expression succeeds, `last_result` is set to the value and exactly one
entry `"<expression> = <result>"` is appended to the history; if it
raises, the handler returns an error text and the state is unchanged. -/
theorem C3_calculate_atomic (env : CalcEnv) (st : CalcState) (expression : String) :
    (∀ v, safe_eval env (ansSubst env st expression) = .ok v →
       calcCallTool env (.calculate expression) st
         = ([ansSubst env st expression ++ " = " ++ env.fmt v],
            ⟨v, st.calculation_history ++ [ansSubst env st expression ++ " = " ++ env.fmt v]⟩)) ∧
    (∀ e, safe_eval env (ansSubst env st expression) = .error e →
       calcCallTool env (.calculate expression) st = (["Error: " ++ e], st)) := by
  constructor
  · intro v hv
    simp only [calcCallTool, calcBody, hv]
  · intro e he
    simp only [calcCallTool, calcBody, he]

/-- Witness for C3: a concrete successful evaluation appends one history
entry, and a concrete invalid expression leaves the state unchanged. -/
theorem C3_calculate_witness :
    calcCallTool calcEnv0 (.calculate "2+2") ⟨0, []⟩ = (["2+2 = 0"], ⟨0, ["2+2 = 0"]⟩) := by
  exact (C3_calculate_atomic calcEnv0 ⟨0, []⟩ "2+2").1 0 (by rfl)

/-- C6: the temperature entries of `unit_convert` compute `x*9/5+32` and
`(x-32)*5/9`, these are exact mutual inverses over rationals, and any
pair of (lowercased) units outside the table yields the
"not supported" reply. -/
theorem C6_unit_convert (env : CalcEnv) (st : CalcState) :
    (∀ x : ℚ, calcCallTool env (.unitConvert x "celsius" "fahrenheit") st
       = ([env.fmt x ++ " " ++ "celsius" ++ " = " ++ env.fmt4 (c2f x) ++ " " ++ "fahrenheit"], st)) ∧
    (∀ x : ℚ, c2f x = x * 9 / 5 + 32) ∧
    (∀ x : ℚ, calcCallTool env (.unitConvert x "fahrenheit" "celsius") st
       = ([env.fmt x ++ " " ++ "fahrenheit" ++ " = " ++ env.fmt4 (f2c x) ++ " " ++ "celsius"], st)) ∧
    (∀ x : ℚ, f2c x = (x - 32) * 5 / 9) ∧
    (∀ x : ℚ, f2c (c2f x) = x) ∧
    (∀ from_unit to_unit : String, ∀ x : ℚ,
       dGet (pyLower from_unit, pyLower to_unit) conversions = none →
       calcCallTool env (.unitConvert x from_unit to_unit) st
         = (["Conversion from " ++ pyLower from_unit ++ " to " ++ pyLower to_unit
             ++ " not supported"], st)) := by
  refine ⟨fun x => rfl, fun x => rfl, fun x => rfl, fun x => rfl, fun x => ?_, ?_⟩
  · unfold f2c c2f
    ring
  · intro fu tu x h
    simp only [calcCallTool, calcBody, h]

/-- Witness for C6: a concrete unsupported pair (`kg` to `km`, after
lowercasing) produces the "not supported" reply. -/
theorem C6_unsupported_witness :
    calcCallTool calcEnv0 (.unitConvert 1 "KG" "KM") ⟨0, []⟩
      = (["Conversion from kg to km not supported"], ⟨0, []⟩) := by
  exact (C6_unit_convert calcEnv0 ⟨0, []⟩).2.2.2.2.2 "KG" "KM" 1 (by rfl)

/-- C8: every key of `custom_tools` is also a key of `server._tools`;
the invariant holds initially and is preserved by `add_tool` and
`remove_tool`; adding an existing name or removing a missing name
returns an error JSON and leaves both maps unchanged. -/
theorem C8_dynamic_invariant :
    DynInv dynInit ∧
    (∀ st n d, DynInv st → DynInv (add_tool n d st).2) ∧
    (∀ st n, DynInv st → DynInv (remove_tool n st).2) ∧
    (∀ st n d, (dGet n st.custom_tools).isSome →
       add_tool n d st = (.errJson ("Tool '" ++ n ++ "' already exists"), st)) ∧
    (∀ st n, dGet n st.custom_tools = none →
       remove_tool n st = (.errJson ("Tool '" ++ n ++ "' not found or is not removable"), st)) := by
  refine ⟨?_, ?_, ?_, ?_, ?_⟩
  · intro k hk
    simp [dynInit, dGet] at hk
  · intro st n d hinv
    unfold add_tool
    by_cases hn : (dGet n st.custom_tools).isSome
    · simp only [if_pos hn]
      exact hinv
    · simp only [if_neg hn]
      intro k hk
      simp only [dGet_dSet] at hk ⊢
      by_cases hkn : n = k
      · simp [hkn]
      · simp only [if_neg hkn] at hk ⊢
        exact hinv k hk
  · intro st n hinv
    unfold remove_tool
    by_cases hn : (dGet n st.custom_tools).isNone
    · simp only [if_pos hn]
      exact hinv
    · simp only [if_neg hn]
      intro k hk
      simp only [dGet_dDel] at hk ⊢
      by_cases hkn : k = n
      · simp [hkn] at hk
      · simp only [if_neg hkn] at hk ⊢
        exact hinv k hk
  · intro st n d h
    unfold add_tool
    rw [if_pos h]
  · intro st n h
    unfold remove_tool
    rw [if_pos (by simp [h])]

/-- Witness for C8: adding a name that already exists returns the error
JSON and leaves the state unchanged. -/
theorem C8_add_existing_witness :
    add_tool "a" none ⟨[("a", ⟨"a", "d"⟩)], [("a", ⟨"a", "d"⟩)]⟩
      = (.errJson "Tool 'a' already exists", ⟨[("a", ⟨"a", "d"⟩)], [("a", ⟨"a", "d"⟩)]⟩) := by
  exact C8_dynamic_invariant.2.2.2.1 ⟨[("a", ⟨"a", "d"⟩)], [("a", ⟨"a", "d"⟩)]⟩ "a" none (by rfl)

/-- C10: the `history` tool returns the `limit` most recent entries in
chronological order for positive `limit`, the whole history for
`limit = 0` (python slice `[-0:]`), the default limit is 10, and an
empty history yields "No calculation history". -/
theorem C10_history (env : CalcEnv) (st : CalcState) :
    (st.calculation_history = [] → ∀ lim, calcCallTool env (.history lim) st
       = (["No calculation history"], st)) ∧
    (∀ lim : ℤ, 0 < lim → st.calculation_history ≠ [] →
       calcCallTool env (.history (some lim)) st
         = (["Recent calculations:\n" ++ String.intercalate "\n"
             (st.calculation_history.drop (st.calculation_history.length - lim.toNat))], st)) ∧
    (st.calculation_history ≠ [] →
       calcCallTool env (.history (some 0)) st
         = (["Recent calculations:\n" ++ String.intercalate "\n" st.calculation_history], st)) ∧
    calcCallTool env (.history none) st = calcCallTool env (.history (some 10)) st := by
  refine ⟨?_, ?_, ?_, rfl⟩
  · intro h lim
    simp [calcCallTool, calcBody, h]
  · intro lim hpos hne
    have h1 : pySliceFrom st.calculation_history (-lim)
        = st.calculation_history.drop (st.calculation_history.length - lim.toNat) := by
      unfold pySliceFrom
      rw [if_neg (by omega), Int.neg_neg]
    have h2 : st.calculation_history.drop (st.calculation_history.length - lim.toNat) ≠ [] := by
      intro hnil
      have hlen := List.drop_eq_nil_iff.mp hnil
      have hl0 : 0 < st.calculation_history.length := List.length_pos.mpr hne
      omega
    simp [calcCallTool, calcBody, hne, h1, h2]
  · intro hne
    have h1 : pySliceFrom st.calculation_history (0 : ℤ) = st.calculation_history := by
      unfold pySliceFrom
      norm_num
    simp [calcCallTool, calcBody, hne, h1]

/-- Witness for C10: with history `["a", "b"]` and limit 1 the handler
returns only the most recent entry. -/
theorem C10_history_witness :
    calcCallTool calcEnv0 (.history (some 1)) ⟨0, ["a", "b"]⟩
      = (["Recent calculations:\nb"], ⟨0, ["a", "b"]⟩) := by
  exact (C10_history calcEnv0 ⟨0, ["a", "b"]⟩).2.1 1 (by norm_num) (by decide)

/-- C2: for non-empty input the `statistics` tool returns the reference
results — mean is the sum over the length, median the middle of the
sorted list (average of the two middles for even length), std_dev the
float square root applied to exactly the population variance, and sum
the sum; the empty list yields "No numbers provided". -/
theorem C2_statistics_reference (env : CalcEnv) (st : CalcState) (numbers : List ℚ)
    (h : numbers ≠ []) :
    calcCallTool env (.statistics numbers "mean") st
      = (["mean of " ++ fmtQList env numbers ++ " = " ++ env.fmt (spec_mean numbers)], st) ∧
    calcCallTool env (.statistics numbers "median") st
      = (["median of " ++ fmtQList env numbers ++ " = " ++ env.fmt (spec_median numbers)], st) ∧
    calcCallTool env (.statistics numbers "std_dev") st
      = (["std_dev of " ++ fmtQList env numbers ++ " = "
          ++ env.fmt (env.sqrtF (spec_variance numbers))], st) ∧
    calcCallTool env (.statistics numbers "sum") st
      = (["sum of " ++ fmtQList env numbers ++ " = " ++ env.fmt numbers.sum], st) ∧
    (∀ operation, calcCallTool env (.statistics [] operation) st
      = (["No numbers provided"], st)) := by
  refine ⟨?_, ?_, ?_, ?_, fun operation => rfl⟩
  · simp only [calcCallTool, calcBody]
    rw [if_neg h]
    rfl
  · simp only [calcCallTool, calcBody]
    rw [if_neg h]
    rfl
  · simp only [calcCallTool, calcBody]
    rw [if_neg h]
    rfl
  · simp only [calcCallTool, calcBody]
    rw [if_neg h]
    rfl

/-- Witness for C2: the statistics of `[3, 1, 2]`. -/
theorem C2_statistics_witness :
    calcCallTool calcEnv0 (.statistics [3, 1, 2] "mean") ⟨0, []⟩
      = (["mean of " ++ fmtQList calcEnv0 [3, 1, 2] ++ " = "
          ++ calcEnv0.fmt (spec_mean [3, 1, 2])], ⟨0, []⟩) := by
  exact (C2_statistics_reference calcEnv0 ⟨0, []⟩ [3, 1, 2] (by decide)).1

/-- C7: `generate_users` writes only the `"users"` key of the store;
`clear_data` removes only the named collection (other keys unchanged)
and on a missing collection returns a not-found text with the whole
store unchanged. -/
theorem C7_frame_effects (env : DataEnv) :
    (∀ count fields store k, k ≠ "users" →
       dGet k ((dataCallTool env (.generateUsers count fields) store).2) = dGet k store) ∧
    (∀ coll store d, dGet coll store = some d →
       (dataCallTool env (.clearData coll) store).1
           = .text ("Cleared collection '" ++ coll ++ "'") ∧
       dGet coll ((dataCallTool env (.clearData coll) store).2) = none ∧
       ∀ k, k ≠ coll → dGet k ((dataCallTool env (.clearData coll) store).2) = dGet k store) ∧
    (∀ coll store, dGet coll store = none →
       dataCallTool env (.clearData coll) store
         = (.text ("Collection '" ++ coll ++ "' not found"), store)) := by
  refine ⟨?_, ?_, ?_⟩
  · intro count fields store k hk
    have h2 : (dataCallTool env (.generateUsers count fields) store).2
        = dSet "users" ((List.range (count.getD 10)).map
            (genUser env (fields.getD ["name", "email", "age", "city"]))) store := rfl
    rw [h2, dGet_dSet, if_neg (fun hh => hk hh.symm)]
  · intro coll store d hd
    have hbody : dataCallTool env (.clearData coll) store
        = (.text ("Cleared collection '" ++ coll ++ "'"), dDel coll store) := by
      simp only [dataCallTool, dataBody, hd]
    refine ⟨by rw [hbody], ?_, ?_⟩
    · rw [hbody]
      simp [dGet_dDel]
    · intro k hk
      rw [hbody]
      simp only
      rw [dGet_dDel, if_neg hk]
  · intro coll store h
    simp only [dataCallTool, dataBody, h]

/-- Witness for C7: clearing `"a"` from a two-collection store leaves
`"b"` unchanged, and a missing collection is reported as not found. -/
theorem C7_frame_witness :
    dGet "b" ((dataCallTool dataEnv0 (.clearData "a") [("a", []), ("b", [[]])]).2)
        = dGet "b" [("a", []), ("b", [[]])] ∧
    dataCallTool dataEnv0 (.clearData "c") [("a", [])]
        = (.text "Collection 'c' not found", [("a", [])]) := by
  constructor
  · exact ((C7_frame_effects dataEnv0).2.1 "a" [("a", []), ("b", [[]])] [] (by rfl)).2.2
      "b" (by decide)
  · exact (C7_frame_effects dataEnv0).2.2 "c" [("a", [])] (by rfl)

/-- C9: every handler of the time server resolves an unrecognized
timezone code to `"UTC"` via `TIMEZONES.get(code, "UTC")`, so an unknown
code never fails and each reply is computed from the UTC zone (the reply
text still echoes the requested code). -/
theorem C9_timezone_fallback {DT : Type} (env : TimeEnv DT) (c : String)
    (hc : c ∉ supportedTz) :
    lookupTz c = "UTC" ∧
    (∀ f, timeCallTool env (.getCurrentTime (some c) f)
       = .ok ["Current time in " ++ c ++ ": "
           ++ (if f.getD "24h" = "12h" then env.fmt12 (env.nowIn "UTC")
               else env.fmt24 (env.nowIn "UTC"))]) ∧
    (∀ f, timeCallTool env (.getDate (some c) f)
       = .ok ["Current date in " ++ c ++ ": "
           ++ (if f.getD "iso" = "us" then env.fmtUS (env.nowIn "UTC")
               else if f.getD "iso" = "eu" then env.fmtEU (env.nowIn "UTC")
               else env.fmtISO (env.nowIn "UTC"))]) ∧
    (∀ td tt, timeCallTool env (.timeUntil td tt (some c))
       = match env.parseDT (td ++ " " ++ tt.getD "00:00") with
         | none => .error ("ValueError: time data '" ++ (td ++ " " ++ tt.getD "00:00")
             ++ "' does not match format")
         | some dt =>
           if env.diffSec (env.localize "UTC" dt) (env.nowIn "UTC") < 0 then
             .ok ["The target date " ++ (td ++ " " ++ tt.getD "00:00") ++ " has already passed!"]
           else
             .ok ["Time until " ++ (td ++ " " ++ tt.getD "00:00") ++ " " ++ c ++ ": "
               ++ toString ((env.diffSec (env.localize "UTC" dt) (env.nowIn "UTC")).toNat / 86400)
               ++ " days, "
               ++ toString ((env.diffSec (env.localize "UTC" dt) (env.nowIn "UTC")).toNat % 86400 / 3600)
               ++ " hours, "
               ++ toString ((env.diffSec (env.localize "UTC" dt) (env.nowIn "UTC")).toNat % 3600 / 60)
               ++ " minutes"]) ∧
    (∀ t oc, timeCallTool env (.tzConverter t c oc)
       = match env.parseDT (env.todayStr ++ " " ++ t) with
         | none => .error ("ValueError: time data '" ++ env.todayStr ++ " " ++ t
             ++ "' does not match format")
         | some dt =>
           .ok [t ++ " " ++ c ++ " = "
             ++ env.fmtHM (env.astimezone (lookupTz oc) (env.localize "UTC" dt)) ++ " " ++ oc]) ∧
    (∀ t oc, timeCallTool env (.tzConverter t oc c)
       = match env.parseDT (env.todayStr ++ " " ++ t) with
         | none => .error ("ValueError: time data '" ++ env.todayStr ++ " " ++ t
             ++ "' does not match format")
         | some dt =>
           .ok [t ++ " " ++ oc ++ " = "
             ++ env.fmtHM (env.astimezone "UTC" (env.localize (lookupTz oc) dt)) ++ " " ++ c]) := by
  have hg : ∀ z ∈ supportedTz, c ≠ z := fun z hz hh => hc (hh ▸ hz)
  have g1 := hg "UTC" (by simp [supportedTz])
  have g2 := hg "EST" (by simp [supportedTz])
  have g3 := hg "PST" (by simp [supportedTz])
  have g4 := hg "CST" (by simp [supportedTz])
  have g5 := hg "MST" (by simp [supportedTz])
  have g6 := hg "GMT" (by simp [supportedTz])
  have g7 := hg "CET" (by simp [supportedTz])
  have g8 := hg "JST" (by simp [supportedTz])
  have g9 := hg "AEST" (by simp [supportedTz])
  have hnone : dGet c TIMEZONES = none := by
    simp only [TIMEZONES, dGet]
    rw [if_neg (fun hh => g1 hh.symm), if_neg (fun hh => g2 hh.symm),
      if_neg (fun hh => g3 hh.symm), if_neg (fun hh => g4 hh.symm),
      if_neg (fun hh => g5 hh.symm), if_neg (fun hh => g6 hh.symm),
      if_neg (fun hh => g7 hh.symm), if_neg (fun hh => g8 hh.symm),
      if_neg (fun hh => g9 hh.symm)]
  have hutc : lookupTz c = "UTC" := by
    unfold lookupTz
    rw [hnone]
    rfl
  refine ⟨hutc, ?_, ?_, ?_, ?_, ?_⟩
  · intro f
    simp only [timeCallTool, Option.getD_some, hutc]
  · intro f
    simp only [timeCallTool, Option.getD_some, hutc]
  · intro td tt
    simp only [timeCallTool, Option.getD_some, hutc]
  · intro t oc
    simp only [timeCallTool, Option.getD_some, hutc]
  · intro t oc
    simp only [timeCallTool, Option.getD_some, hutc]

/-- Witness for C9: the unknown code "XYZ" resolves to UTC and its
current-time reply is built from the UTC clock. -/
theorem C9_unknown_tz_witness :
    lookupTz "XYZ" = "UTC" ∧
    timeCallTool timeEnv0 (.getCurrentTime (some "XYZ") none)
      = .ok ["Current time in XYZ: t24"] := by
  constructor
  · exact (C9_timezone_fallback timeEnv0 "XYZ" (by decide)).1
  · exact ((C9_timezone_fallback timeEnv0 "XYZ" (by decide)).2.1 none)

/-- C4 (amended): `query_data` filters with the conjunction of the
MongoDB-style conditions, then sorts ascending by the sort key (missing
fields sort as 0), then truncates to the first `limit` items (default
10), and an unknown collection yields a not-found text with the store
untouched — provided the python comparisons the handler performs cannot
raise, i.e. every item carries a same-kind value for every
ordering-operator field and all sort keys share one kind (see the
counterexample for the raising case). -/
theorem C4_query_data (env : DataEnv) (store : Store) (coll : String)
    (fOpt : Option DFilter) (sbOpt : Option String) (limOpt : Option ℕ) :
    (dGet coll store = none →
       dataCallTool env (.queryData coll fOpt sbOpt limOpt) store
         = (.text ("Collection '" ++ coll ++ "' not found"), store)) ∧
    (∀ data, dGet coll store = some data →
       (∀ it ∈ data, filterComparable it (fOpt.getD []) = true) →
       ((sbOpt = none ∨ sbOpt = some "") →
          dataCallTool env (.queryData coll fOpt sbOpt limOpt) store
            = (.items ((data.filter (fun it => specMatches it (fOpt.getD []))).take
                (limOpt.getD 10)), store)) ∧
       (∀ sb, sbOpt = some sb → sb ≠ "" →
          SortKeysUniform sb (data.filter (fun it => specMatches it (fOpt.getD []))) →
          ∃ s, List.Perm s (data.filter (fun it => specMatches it (fOpt.getD []))) ∧
            List.Sorted (fun a b => valLeB (sortKey sb a) (sortKey sb b) = true) s ∧
            dataCallTool env (.queryData coll fOpt sbOpt limOpt) store
              = (.items (s.take (limOpt.getD 10)), store))) := by
  constructor
  · intro h
    simp only [dataCallTool, dataBody, h]
  · intro data hdata hcomp
    have hstep1 : (match fOpt with
        | some f => if f.isEmpty then Except.ok data
                    else filterExcept (fun it => applyFilter it f) data
        | none => Except.ok data)
        = Except.ok (data.filter (fun it => specMatches it (fOpt.getD []))) := by
      cases fOpt with
      | none => simp [specMatches]
      | some f =>
        cases f with
        | nil => simp [specMatches]
        | cons p rest =>
          have hfe : filterExcept (fun it => applyFilter it (p :: rest)) data
              = .ok (data.filter (fun it => specMatches it (p :: rest))) :=
            filterExcept_eq _ _ _
              (fun it hit => applyFilter_eq it (p :: rest) (hcomp it hit))
          simpa using hfe
    constructor
    · intro hsb
      rcases hsb with h | h
      · subst h
        simp only [dataCallTool, dataBody, hdata, hstep1]
      · subst h
        simp only [dataCallTool, dataBody, hdata, hstep1]
        rfl
    · intro sb hsb hne hkeys
      subst hsb
      refine ⟨List.insertionSort (fun a b => valLeB (sortKey sb a) (sortKey sb b) = true)
          (data.filter (fun it => specMatches it (fOpt.getD []))), List.perm_insertionSort _ _,
          ?_, ?_⟩
      · haveI : IsTotal Item (fun a b => valLeB (sortKey sb a) (sortKey sb b) = true) :=
          ⟨fun a b => valLeB_total _ _⟩
        haveI : IsTrans Item (fun a b => valLeB (sortKey sb a) (sortKey sb b) = true) :=
          ⟨fun a b c => valLeB_trans _ _ _⟩
        exact List.sorted_insertionSort _ _
      · simp only [dataCallTool, dataBody, hdata, hstep1]
        rw [if_neg hne, pySortByKey_ok _ _ hkeys]

/-- Witness for C4: a numeric `$gt` filter with all fields present keeps
exactly the matching items. -/
theorem C4_query_witness :
    dataCallTool dataEnv0
        (.queryData "c" (some [("age", Cond.ops [("$gt", Val.num 25)])]) none none)
        [("c", [[("age", Val.num 30)], [("age", Val.num 20)]])]
      = (.items [[("age", Val.num 30)]],
         [("c", [[("age", Val.num 30)], [("age", Val.num 20)]])]) := by
  exact ((C4_query_data dataEnv0 [("c", [[("age", Val.num 30)], [("age", Val.num 20)]])] "c"
      (some [("age", Cond.ops [("$gt", Val.num 25)])]) none none).2
      [[("age", Val.num 30)], [("age", Val.num 20)]] rfl (by decide)).1 (Or.inl rfl)

/-- C4 counterexample: with an item lacking the `$gt`-filtered field the
python comparison `None > 5` raises, so the handler returns an error text
instead of dropping the item as the claim, read unconditionally, would
require. -/
theorem C4_missing_field_error :
    dataCallTool dataEnv0
        (.queryData "c" (some [("age", Cond.ops [("$gt", Val.num 5)])]) none none)
        [("c", [[]])]
      = (.text "Error: TypeError: comparison with NoneType", [("c", [[]])]) := rfl

/-- C5 (amended): `generate_transactions` requires both the `users` and
`products` collections: if either key is missing it replies "Please
generate users and products first" and leaves the store unchanged; if
both are present, non-empty, and carry the fields the generator reads
(user id; product id, name and numeric price), it stores exactly `count`
transactions under `"transactions"`, each with total equal to the chosen
product's price times the quantity rounded to 2 decimal places (see the
counterexample for an empty-but-present collection). -/
theorem C5_generate_transactions (env : DataEnv) (store : Store)
    (count days_back : Option ℕ) :
    ((dGet "users" store = none ∨ dGet "products" store = none) →
       dataCallTool env (.generateTransactions count days_back) store
         = (.text "Please generate users and products first", store)) ∧
    (∀ users products, dGet "users" store = some users →
       dGet "products" store = some products →
       users ≠ [] → products ≠ [] →
       (∀ u ∈ users, (dGet "id" u).isSome) →
       (∀ p ∈ products, (dGet "id" p).isSome ∧ (dGet "name" p).isSome ∧
          ∃ q, dGet "price" p = some (Val.num q)) →
       ∃ txs, dataCallTool env (.generateTransactions count days_back) store
           = (.text ("Generated " ++ toString (count.getD 20) ++ " transactions over the last "
               ++ toString (days_back.getD 30) ++ " days"), dSet "transactions" txs store) ∧
         txs.length = count.getD 20 ∧
         ∀ tx ∈ txs, TxProp products tx) := by
  constructor
  · intro h
    cases hu : dGet "users" store with
    | none => simp only [dataCallTool, dataBody, hu]
    | some us =>
      cases hp : dGet "products" store with
      | none => simp only [dataCallTool, dataBody, hu, hp]
      | some ps =>
        rcases h with h | h
        · rw [hu] at h
          exact absurd h (by simp)
        · rw [hp] at h
          exact absurd h (by simp)
  · intro users products hu hp hune hpne huid hpf
    have hgen : ∀ i ∈ List.range (count.getD 20),
        ∃ tx, genTx env users products (days_back.getD 30) i = .ok tx :=
      fun i _ => (genTx_ok env users products (days_back.getD 30) i hune hpne huid hpf).imp
        (fun tx hh => hh.1)
    obtain ⟨txs, htxs, hlen, hmem⟩ := mapExcept_exists _ _ hgen
    refine ⟨txs, ?_, by rw [hlen, List.length_range], ?_⟩
    · simp only [dataCallTool, dataBody, hu, hp, htxs]
    · intro tx htx
      obtain ⟨i, hi, hftx⟩ := hmem tx htx
      obtain ⟨tx', htx', hprop⟩ :=
        genTx_ok env users products (days_back.getD 30) i hune hpne huid hpf
      have heq : tx' = tx := by
        have hh := htx'.symm.trans hftx
        injection hh
      rw [← heq]
      exact hprop

/-- Witness for C5: with one user and one product carrying the required
fields, two transactions are generated with the rounded totals. -/
theorem C5_transactions_witness :
    ∃ txs, dataCallTool dataEnv0 (.generateTransactions (some 2) none)
        [("users", [[("id", Val.num 1)]]),
         ("products", [[("id", Val.num 1), ("name", Val.str "X"), ("price", Val.num (5/2))]])]
        = (.text "Generated 2 transactions over the last 30 days",
           dSet "transactions" txs
             [("users", [[("id", Val.num 1)]]),
              ("products", [[("id", Val.num 1), ("name", Val.str "X"),
                ("price", Val.num (5/2))]])]) ∧
      txs.length = 2 ∧
      ∀ tx ∈ txs, TxProp [[("id", Val.num 1), ("name", Val.str "X"),
        ("price", Val.num (5/2))]] tx := by
  exact (C5_generate_transactions dataEnv0
      [("users", [[("id", Val.num 1)]]),
       ("products", [[("id", Val.num 1), ("name", Val.str "X"), ("price", Val.num (5/2))]])]
      (some 2) none).2 [[("id", Val.num 1)]]
      [[("id", Val.num 1), ("name", Val.str "X"), ("price", Val.num (5/2))]]
      rfl rfl (by decide) (by decide) (by decide)
      (by
        intro p hp
        simp only [List.mem_singleton] at hp
        subst hp
        exact ⟨by rfl, by rfl, ⟨5/2, rfl⟩⟩)

/-- C5 counterexample: both keys exist but `users` is the empty list, so
`random.choice` raises and nothing is stored, although the claim as
stated promises `count` stored transactions whenever both collections
exist. -/
theorem C5_empty_users_error :
    dataCallTool dataEnv0 (.generateTransactions (some 1) none)
        [("users", []), ("products", [[("id", Val.num 1), ("name", Val.str "X"),
          ("price", Val.num 10)]])]
      = (.text "Error: Cannot choose from empty sequence",
         [("users", []), ("products", [[("id", Val.num 1), ("name", Val.str "X"),
           ("price", Val.num 10)]])]) ∧
    dGet "transactions" ((dataCallTool dataEnv0 (.generateTransactions (some 1) none)
        [("users", []), ("products", [[("id", Val.num 1), ("name", Val.str "X"),
          ("price", Val.num 10)]])]).2) = none := by
  exact ⟨rfl, rfl⟩
